import Mathlib

/-!
Verification of the grading thunk-action module
(src/data/redux/thunkActions/grading.js) of frontend-app-ora-grading.

The module is Redux coordination glue: each exported function ("thunk")
reads the store through selectors, issues at most one asynchronous request
through the external requests collaborator, and dispatches store actions in
its success callback.  We embed each thunk as a function from an abstract
store state to a final state together with the ordered trace of effects it
dispatches (requests issued and actions dispatched).

Collaborators that live outside the given source (the requests module,
the redux actions/selectors/reducers) are abstracted, following the spec's
external-interface contract: a request collaborator issues a named
asynchronous request and invokes the success callback with a response
payload (or the failure callback); issuing a request does not itself change
the state observed by the grading/app selectors.  Selector reads and the
reducer are opaque parameters of the embedding (the Ctx structure below).

Timing of callbacks: in every thunk of this module the request dispatch is
the last statement of the surrounding function, so running a request's
success callback immediately after the request event reproduces the event
loop's schedule, except inside loadSelectionForReview, where the second
(prev) existence check runs before the next-prefetch response can arrive;
there we model only the synchronous horizon of the success callback, in
which dispatching a prefetch thunk contributes just its request issuance.
-/

namespace Grading

/-- Grade data: the rubric criterion to selected-option mapping carried in
request payloads and responses.  Opaque to this layer; any type with
decidable equality would do. -/
abbrev GradeData := List (String × String)

/-- Request keys used by the prefetch requests (RequestKeys.prefetchNext and
RequestKeys.prefetchPrev in the source). -/
inductive RequestKey
  | prefetchNext
  | prefetchPrev
deriving DecidableEq, Repr

/-- Response payload handed to a success callback.  JavaScript objects are
open; we keep the two fields this module inspects or overrides
(submissionUUID, gradeData — absent fields are none) plus an opaque rest.
A submission id is an Option String: none stands for the JavaScript value
undefined. -/
structure Response where
  submissionUUID : Option String
  gradeData : Option GradeData
  rest : Nat
deriving DecidableEq, Repr

/-- Embedding of the object spread used in the source: the merged object has
every field of the response, with submissionUUID overridden by the passed
value (even when that value is undefined). -/
def mergeUUID (response : Response) (submissionUUID : Option String) : Response :=
  { response with submissionUUID := submissionUUID }

/-- Store actions dispatched by this module (action creators from
data/redux actions, external to the source file; each carries the payload
the source passes to it). -/
inductive Action
  | preloadNext (response : Response)
  | preloadPrev (response : Response)
  | loadNext (payload : Response)
  | loadPrev (payload : Response)
  | updateSelection (submissionUUIDs : List String)
  | loadSubmission (payload : Response)
  | setShowReview (value : Bool)
  | setShowRubric (value : Bool)
  | startGrading (payload : Response) (gradeData : GradeData)
  | stopGrading
  | completeGrading (response : Response)
  | setShowValidation (value : Bool)
deriving DecidableEq, Repr

/-- Requests issued through the external requests collaborator, with the
arguments the source passes (callbacks are handled by the interpreter). -/
inductive Request
  | fetchSubmissionResponse (requestKey : RequestKey) (submissionUUID : Option String)
  | fetchSubmissionStatus (submissionUUID : Option String)
  | fetchSubmission (submissionUUID : Option String)
  | setLock (value : Bool) (submissionUUID : Option String)
  | submitGrade (submissionUUID : Option String) (gradeData : GradeData)
deriving DecidableEq, Repr

/-- One observable effect of a thunk run: a store action dispatched, or a
request issued to the requests collaborator. -/
inductive Event
  | action (a : Action)
  | request (r : Request)
deriving DecidableEq, Repr

/-- Ordered trace of the effects of one thunk run. -/
abbrev Trace := List Event

/-- Environment of a thunk run over an abstract store state σ: the reducer
(apply, behaviour of the external store on a dispatched action), the
network oracle (succeeds, response), and the selectors this module reads.
All are opaque collaborators of the source module. -/
structure Ctx (σ : Type) where
  apply : σ → Action → σ
  succeeds : Request → Bool
  response : Request → Response
  nextDoesExist : σ → Bool
  nextSubmissionUUID : σ → Option String
  prevDoesExist : σ → Bool
  prevSubmissionUUID : σ → Option String
  selectedSubmissionUUID : σ → Option String
  selectedGradingData : σ → GradeData
  isValidForSubmit : σ → Bool
  emptyGrade : σ → GradeData

variable {σ : Type}

/-- Request issued by prefetchNext: fetchSubmissionResponse with request key
prefetchNext for the next submission id read from the current state. -/
def prefetchNextRequest (ctx : Ctx σ) (s : σ) : Request :=
  Request.fetchSubmissionResponse RequestKey.prefetchNext (ctx.nextSubmissionUUID s)

/-- Request issued by prefetchPrev: fetchSubmissionResponse with request key
prefetchPrev for the previous submission id read from the current state. -/
def prefetchPrevRequest (ctx : Ctx σ) (s : σ) : Request :=
  Request.fetchSubmissionResponse RequestKey.prefetchPrev (ctx.prevSubmissionUUID s)

/-- Embedding of prefetchNext (full run: request issuance, then on success
the preloadNext dispatch from its callback). -/
def prefetchNext (ctx : Ctx σ) (s : σ) : σ × Trace :=
  if ctx.succeeds (prefetchNextRequest ctx s) then
    (ctx.apply s (Action.preloadNext (ctx.response (prefetchNextRequest ctx s))),
     [Event.request (prefetchNextRequest ctx s),
      Event.action (Action.preloadNext (ctx.response (prefetchNextRequest ctx s)))])
  else (s, [Event.request (prefetchNextRequest ctx s)])

/-- Embedding of prefetchPrev (full run, as for prefetchNext). -/
def prefetchPrev (ctx : Ctx σ) (s : σ) : σ × Trace :=
  if ctx.succeeds (prefetchPrevRequest ctx s) then
    (ctx.apply s (Action.preloadPrev (ctx.response (prefetchPrevRequest ctx s))),
     [Event.request (prefetchPrevRequest ctx s),
      Event.action (Action.preloadPrev (ctx.response (prefetchPrevRequest ctx s)))])
  else (s, [Event.request (prefetchPrevRequest ctx s)])

/-- Embedding of fetchNeighbor.  Issues fetchSubmissionStatus for the target
submission id; on success the callback dispatches the load action applied to
the response merged with the submission id, then, if hasNeighbor, dispatches
the prefetch thunk.  Nothing follows the conditional prefetch dispatch in
the callback, so running the prefetch thunk's own callback inline
reproduces the event-loop order. -/
def fetchNeighbor (ctx : Ctx σ) (submissionUUID : Option String)
    (loadAction : Response → Action) (hasNeighbor : Bool)
    (prefetchAction : Ctx σ → σ → σ × Trace) (s : σ) : σ × Trace :=
  let r := Request.fetchSubmissionStatus submissionUUID
  if ctx.succeeds r then
    let a := loadAction (mergeUUID (ctx.response r) submissionUUID)
    let s2 := ctx.apply s a
    if hasNeighbor then
      ((prefetchAction ctx s2).1,
       Event.request r :: Event.action a :: (prefetchAction ctx s2).2)
    else (s2, [Event.request r, Event.action a])
  else (s, [Event.request r])

/-- Embedding of loadNext: fetchNeighbor instantiated with the next
submission id and next-existence check, both read from the state at
invocation time, the loadNext action and the prefetchNext thunk. -/
def loadNext (ctx : Ctx σ) (s : σ) : σ × Trace :=
  fetchNeighbor ctx (ctx.nextSubmissionUUID s) Action.loadNext
    (ctx.nextDoesExist s) prefetchNext s

/-- Embedding of loadPrev: fetchNeighbor instantiated with the previous
submission id and prev-existence check, both read from the state at
invocation time, the loadPrev action and the prefetchPrev thunk. -/
def loadPrev (ctx : Ctx σ) (s : σ) : σ × Trace :=
  fetchNeighbor ctx (ctx.prevSubmissionUUID s) Action.loadPrev
    (ctx.prevDoesExist s) prefetchPrev s

/-- Embedding of loadSelectionForReview, modelled to its synchronous
horizon.  Issues fetchSubmission for submissionUUIDs[0] (List.head?, none
when the list is empty, matching the undefined produced by unguarded
indexing).  On success the callback dispatches updateSelection,
loadSubmission (response merged with the first id) and setShowReview true,
then independently checks next and prev existence with getState; each
prefetch thunk dispatched here contributes its request issuance only,
because its own response callback cannot run before this callback
returns. -/
def loadSelectionForReview (ctx : Ctx σ) (submissionUUIDs : List String) (s : σ) :
    σ × Trace :=
  let u0 := submissionUUIDs.head?
  let r := Request.fetchSubmission u0
  if ctx.succeeds r then
    let s2 := ctx.apply s (Action.updateSelection submissionUUIDs)
    let s3 := ctx.apply s2 (Action.loadSubmission (mergeUUID (ctx.response r) u0))
    let s4 := ctx.apply s3 (Action.setShowReview true)
    let tNext : Trace :=
      if ctx.nextDoesExist s4 then [Event.request (prefetchNextRequest ctx s4)] else []
    let tPrev : Trace :=
      if ctx.prevDoesExist s4 then [Event.request (prefetchPrevRequest ctx s4)] else []
    (s4,
     Event.request r
       :: Event.action (Action.updateSelection submissionUUIDs)
       :: Event.action (Action.loadSubmission (mergeUUID (ctx.response r) u0))
       :: Event.action (Action.setShowReview true)
       :: (tNext ++ tPrev))
  else (s, [Event.request r])

/-- Embedding of startGrading.  Issues setLock true for the selected
submission id; on success the callback dispatches setShowRubric true, then
reads gradeData from the response, replacing it by the emptyGrade selector
value (read from the state after the setShowRubric dispatch) when the
response carries none, and dispatches the startGrading action with the
response merged with the chosen gradeData. -/
def startGrading (ctx : Ctx σ) (s : σ) : σ × Trace :=
  let r := Request.setLock true (ctx.selectedSubmissionUUID s)
  if ctx.succeeds r then
    let s2 := ctx.apply s (Action.setShowRubric true)
    let gd := match (ctx.response r).gradeData with
      | some g => g
      | none => ctx.emptyGrade s2
    (ctx.apply s2 (Action.startGrading (ctx.response r) gd),
     [Event.request r, Event.action (Action.setShowRubric true),
      Event.action (Action.startGrading (ctx.response r) gd)])
  else (s, [Event.request r])

/-- Embedding of stopGrading: dispatches the stopGrading store action only;
local, no request. -/
def stopGrading (ctx : Ctx σ) (s : σ) : σ × Trace :=
  (ctx.apply s Action.stopGrading, [Event.action Action.stopGrading])

/-- Embedding of cancelGrading.  Issues setLock false for the selected
submission id; on success the callback dispatches the stopGrading thunk. -/
def cancelGrading (ctx : Ctx σ) (s : σ) : σ × Trace :=
  let r := Request.setLock false (ctx.selectedSubmissionUUID s)
  if ctx.succeeds r then
    ((stopGrading ctx s).1, Event.request r :: (stopGrading ctx s).2)
  else (s, [Event.request r])

/-- Embedding of submitGrade.  Reads gradeData and submissionUUID from the
invocation state; when isValidForSubmit holds, dispatches
setShowValidation false and issues the submitGrade request (success
callback: completeGrading with the response; failure callback: empty, no
dispatch); otherwise dispatches setShowValidation true and nothing else. -/
def submitGrade (ctx : Ctx σ) (s : σ) : σ × Trace :=
  let gradeData := ctx.selectedGradingData s
  let submissionUUID := ctx.selectedSubmissionUUID s
  if ctx.isValidForSubmit s then
    let s2 := ctx.apply s (Action.setShowValidation false)
    let r := Request.submitGrade submissionUUID gradeData
    if ctx.succeeds r then
      (ctx.apply s2 (Action.completeGrading (ctx.response r)),
       [Event.action (Action.setShowValidation false), Event.request r,
        Event.action (Action.completeGrading (ctx.response r))])
    else
      (s2, [Event.action (Action.setShowValidation false), Event.request r])
  else
    (ctx.apply s (Action.setShowValidation true),
     [Event.action (Action.setShowValidation true)])

/-- Event classifier: a fetchSubmissionStatus request. -/
def isStatusFetch : Event → Bool
  | Event.request (Request.fetchSubmissionStatus _) => true
  | _ => false

/-- Event classifier: a fetchSubmissionResponse request (response-only
prefetch fetch). -/
def isResponseFetch : Event → Bool
  | Event.request (Request.fetchSubmissionResponse _ _) => true
  | _ => false

/-- Event classifier: a fetchSubmission request (full submission fetch). -/
def isFullFetch : Event → Bool
  | Event.request (Request.fetchSubmission _) => true
  | _ => false

/-- Event classifier: a submitGrade request. -/
def isSubmitRequest : Event → Bool
  | Event.request (Request.submitGrade _ _) => true
  | _ => false

/-- Event classifier: any request issued to the requests collaborator. -/
def isRequestEvent : Event → Bool
  | Event.request _ => true
  | _ => false

/-- Event classifier: a setLock false (lock release) request. -/
def isLockRelease : Event → Bool
  | Event.request (Request.setLock false _) => true
  | _ => false

/-- Event classifier: a dispatched startGrading store action. -/
def isStartGradingAction : Event → Bool
  | Event.action (Action.startGrading _ _) => true
  | _ => false

/-- Event classifier: a dispatched stopGrading store action. -/
def isStopGradingAction : Event → Bool
  | Event.action Action.stopGrading => true
  | _ => false

/-- Event classifier: a dispatched completeGrading store action. -/
def isCompleteGradingAction : Event → Bool
  | Event.action (Action.completeGrading _) => true
  | _ => false

/-- State reached after the three load dispatches of
loadSelectionForReview's success callback (updateSelection, loadSubmission,
setShowReview); both prefetch existence checks read this state. -/
def postSelectState (ctx : Ctx σ) (submissionUUIDs : List String) (s : σ) : σ :=
  ctx.apply
    (ctx.apply
      (ctx.apply s (Action.updateSelection submissionUUIDs))
      (Action.loadSubmission
        (mergeUUID (ctx.response (Request.fetchSubmission submissionUUIDs.head?))
          submissionUUIDs.head?)))
    (Action.setShowReview true)

/-- State reached after loadNext's load action is dispatched (the state the
prefetch thunk reads the new next submission id from). -/
def postLoadNextState (ctx : Ctx σ) (s : σ) : σ :=
  ctx.apply s
    (Action.loadNext
      (mergeUUID
        (ctx.response (Request.fetchSubmissionStatus (ctx.nextSubmissionUUID s)))
        (ctx.nextSubmissionUUID s)))

/-- State reached after loadPrev's load action is dispatched. -/
def postLoadPrevState (ctx : Ctx σ) (s : σ) : σ :=
  ctx.apply s
    (Action.loadPrev
      (mergeUUID
        (ctx.response (Request.fetchSubmissionStatus (ctx.prevSubmissionUUID s)))
        (ctx.prevSubmissionUUID s)))

/-- Concrete response carrying grade data, for evaluating the embedding. -/
def sampleResponse : Response :=
  { submissionUUID := some "resp-own-id", gradeData := some [("criterion", "excellent")],
    rest := 5 }

/-- Concrete environment over the store state Nat: every dispatched action
increments the state (so states before and after a dispatch differ), every
request succeeds with sampleResponse, all selectors are total concrete
functions.  Base instance for witnesses and counterexamples. -/
def baseCtx : Ctx Nat where
  apply := fun s _ => s + 1
  succeeds := fun _ => true
  response := fun _ => sampleResponse
  nextDoesExist := fun _ => true
  nextSubmissionUUID := fun s => some (if s == 0 then "nextA" else "nextB")
  prevDoesExist := fun _ => true
  prevSubmissionUUID := fun s => some (if s == 0 then "prevA" else "prevB")
  selectedSubmissionUUID := fun _ => some "selected-id"
  selectedGradingData := fun _ => [("criterion", "good")]
  isValidForSubmit := fun _ => true
  emptyGrade := fun _ => [("criterion", "")]

/-- Environment in which a next neighbor exists at invocation time (state 0)
but no longer after any action has been dispatched. -/
def ctxPreOnly : Ctx Nat :=
  { baseCtx with nextDoesExist := fun s => s == 0 }

/-- Environment in which no next neighbor exists at invocation time (state
0) but one exists after exactly one action has been dispatched. -/
def ctxPostOnly : Ctx Nat :=
  { baseCtx with nextDoesExist := fun s => s == 1 }

/-- Environment in which the current grade is not valid for submission. -/
def ctxInvalid : Ctx Nat :=
  { baseCtx with isValidForSubmit := fun _ => false }

/-- Environment in which the submitGrade request fails and every other
request succeeds. -/
def ctxSubmitFails : Ctx Nat :=
  { baseCtx with
      succeeds := fun r => match r with
        | Request.submitGrade _ _ => false
        | _ => true }

/-- Environment whose responses carry no grade data. -/
def ctxNoGradeData : Ctx Nat :=
  { baseCtx with
      response := fun _ => { submissionUUID := none, gradeData := none, rest := 0 } }

/-- Environment in which no next neighbor exists in any state. -/
def ctxNoNext : Ctx Nat :=
  { baseCtx with nextDoesExist := fun _ => false }

end Grading

namespace Grading

variable {σ : Type}

/-- Classifier evaluation: the prefetchNext request is a response-only
fetch. -/
theorem isResponseFetch_prefetchNextRequest (ctx : Ctx σ) (s : σ) :
    isResponseFetch (Event.request (prefetchNextRequest ctx s)) = true := rfl

/-- Classifier evaluation: the prefetchPrev request is a response-only
fetch. -/
theorem isResponseFetch_prefetchPrevRequest (ctx : Ctx σ) (s : σ) :
    isResponseFetch (Event.request (prefetchPrevRequest ctx s)) = true := rfl

/-- Classifier evaluation: the prefetchNext request is not a status
fetch. -/
theorem isStatusFetch_prefetchNextRequest (ctx : Ctx σ) (s : σ) :
    isStatusFetch (Event.request (prefetchNextRequest ctx s)) = false := rfl

/-- Classifier evaluation: the prefetchPrev request is not a status
fetch. -/
theorem isStatusFetch_prefetchPrevRequest (ctx : Ctx σ) (s : σ) :
    isStatusFetch (Event.request (prefetchPrevRequest ctx s)) = false := rfl

/-- Closed form of a prefetchNext run: the request event, followed by the
preloadNext dispatch exactly when the request succeeds. -/
theorem prefetchNext_run (ctx : Ctx σ) (s : σ) :
    prefetchNext ctx s
      = (if ctx.succeeds (prefetchNextRequest ctx s) then
           ctx.apply s (Action.preloadNext (ctx.response (prefetchNextRequest ctx s)))
         else s,
         Event.request (prefetchNextRequest ctx s)
           :: (if ctx.succeeds (prefetchNextRequest ctx s) then
                 [Event.action (Action.preloadNext (ctx.response (prefetchNextRequest ctx s)))]
               else [])) := by
  cases hp : ctx.succeeds (prefetchNextRequest ctx s) <;> simp [prefetchNext, hp]

/-- Closed form of a prefetchPrev run. -/
theorem prefetchPrev_run (ctx : Ctx σ) (s : σ) :
    prefetchPrev ctx s
      = (if ctx.succeeds (prefetchPrevRequest ctx s) then
           ctx.apply s (Action.preloadPrev (ctx.response (prefetchPrevRequest ctx s)))
         else s,
         Event.request (prefetchPrevRequest ctx s)
           :: (if ctx.succeeds (prefetchPrevRequest ctx s) then
                 [Event.action (Action.preloadPrev (ctx.response (prefetchPrevRequest ctx s)))]
               else [])) := by
  cases hp : ctx.succeeds (prefetchPrevRequest ctx s) <;> simp [prefetchPrev, hp]

/-- A prefetchNext run issues exactly one response-only fetch. -/
theorem prefetchNext_responseFetch_count (ctx : Ctx σ) (s : σ) :
    (prefetchNext ctx s).2.countP isResponseFetch = 1 := by
  cases hp : ctx.succeeds (prefetchNextRequest ctx s) <;>
    simp [prefetchNext, hp, List.countP_cons, isResponseFetch,
      isResponseFetch_prefetchNextRequest] <;> rfl

/-- A prefetchPrev run issues exactly one response-only fetch. -/
theorem prefetchPrev_responseFetch_count (ctx : Ctx σ) (s : σ) :
    (prefetchPrev ctx s).2.countP isResponseFetch = 1 := by
  cases hp : ctx.succeeds (prefetchPrevRequest ctx s) <;>
    simp [prefetchPrev, hp, List.countP_cons, isResponseFetch,
      isResponseFetch_prefetchPrevRequest] <;> rfl

/-- A prefetchNext run issues no status fetch. -/
theorem prefetchNext_statusFetch_count (ctx : Ctx σ) (s : σ) :
    (prefetchNext ctx s).2.countP isStatusFetch = 0 := by
  cases hp : ctx.succeeds (prefetchNextRequest ctx s) <;>
    simp [prefetchNext, hp, List.countP_cons, isStatusFetch,
      isStatusFetch_prefetchNextRequest] <;> rfl

/-- A prefetchPrev run issues no status fetch. -/
theorem prefetchPrev_statusFetch_count (ctx : Ctx σ) (s : σ) :
    (prefetchPrev ctx s).2.countP isStatusFetch = 0 := by
  cases hp : ctx.succeeds (prefetchPrevRequest ctx s) <;>
    simp [prefetchPrev, hp, List.countP_cons, isStatusFetch,
      isStatusFetch_prefetchPrevRequest] <;> rfl

/-- C1: for every state, submitGrade issues the submit request if and only
if isValidForSubmit holds on that state (the count of submit requests is 1
when valid and 0 when invalid); when valid the whole trace is the
setShowValidation false dispatch first, then exactly one submitGrade
request carrying the selected submission id and grading data, then the
completeGrading dispatch exactly when the request succeeds; when invalid
the whole trace is the single setShowValidation true dispatch, so no
request and no other action. -/
theorem submitGrade_validation_gate (ctx : Ctx σ) (s : σ) :
    ((submitGrade ctx s).2.countP isSubmitRequest
        = if ctx.isValidForSubmit s then 1 else 0)
    ∧ ((submitGrade ctx s).2
        = if ctx.isValidForSubmit s then
            Event.action (Action.setShowValidation false)
              :: Event.request (Request.submitGrade (ctx.selectedSubmissionUUID s)
                   (ctx.selectedGradingData s))
              :: (if ctx.succeeds (Request.submitGrade (ctx.selectedSubmissionUUID s)
                       (ctx.selectedGradingData s)) then
                    [Event.action (Action.completeGrading
                       (ctx.response (Request.submitGrade (ctx.selectedSubmissionUUID s)
                         (ctx.selectedGradingData s))))]
                  else [])
          else [Event.action (Action.setShowValidation true)]) := by
  cases hv : ctx.isValidForSubmit s <;>
    cases hs : ctx.succeeds (Request.submitGrade (ctx.selectedSubmissionUUID s)
        (ctx.selectedGradingData s)) <;>
      simp [submitGrade, hv, hs, isSubmitRequest, List.countP_cons]

/-- C6: for every submission id, load action, hasNeighbor flag and prefetch
thunk, fetchNeighbor issues the status fetch for the target; on success its
trace continues with the load action applied to the response merged with
the submission id and then the prefetch thunk's trace if and only if
hasNeighbor is true; on failure the status fetch is its whole trace.  The
merged payload's submissionUUID is the passed id, overriding any same-named
response field. -/
theorem fetchNeighbor_contract (ctx : Ctx σ) (u : Option String)
    (la : Response → Action) (hasNeighbor : Bool)
    (pf : Ctx σ → σ → σ × Trace) (s : σ) :
    ((fetchNeighbor ctx u la hasNeighbor pf s).2
      = if ctx.succeeds (Request.fetchSubmissionStatus u) then
          Event.request (Request.fetchSubmissionStatus u)
            :: Event.action (la (mergeUUID (ctx.response (Request.fetchSubmissionStatus u)) u))
            :: (if hasNeighbor then
                  (pf ctx (ctx.apply s
                    (la (mergeUUID (ctx.response (Request.fetchSubmissionStatus u)) u)))).2
                else [])
        else [Event.request (Request.fetchSubmissionStatus u)])
    ∧ ((mergeUUID (ctx.response (Request.fetchSubmissionStatus u)) u).submissionUUID = u) := by
  refine ⟨?_, rfl⟩
  cases hs : ctx.succeeds (Request.fetchSubmissionStatus u) <;>
    cases hasNeighbor <;> simp [fetchNeighbor, hs]

/-- C7: cancelGrading issues exactly one lock-release request (setLock
false for the selected submission); on success its trace is exactly that
request followed by one stopGrading dispatch, and its final state is
reached by applying the stopGrading action alone; stopGrading itself
dispatches exactly the stopGrading store action, issues no request, and
changes the state only through that single action. -/
theorem cancelGrading_stopGrading_contract (ctx : Ctx σ) (s : σ) :
    ((cancelGrading ctx s).2
      = if ctx.succeeds (Request.setLock false (ctx.selectedSubmissionUUID s)) then
          [Event.request (Request.setLock false (ctx.selectedSubmissionUUID s)),
           Event.action Action.stopGrading]
        else [Event.request (Request.setLock false (ctx.selectedSubmissionUUID s))])
    ∧ ((cancelGrading ctx s).2.countP isLockRelease = 1)
    ∧ ((cancelGrading ctx s).2.countP isStopGradingAction
        = if ctx.succeeds (Request.setLock false (ctx.selectedSubmissionUUID s)) then 1 else 0)
    ∧ ((stopGrading ctx s).2 = [Event.action Action.stopGrading])
    ∧ ((stopGrading ctx s).2.countP isRequestEvent = 0)
    ∧ ((cancelGrading ctx s).1
        = if ctx.succeeds (Request.setLock false (ctx.selectedSubmissionUUID s)) then
            ctx.apply s Action.stopGrading
          else s) := by
  cases hs : ctx.succeeds (Request.setLock false (ctx.selectedSubmissionUUID s)) <;>
    simp [cancelGrading, stopGrading, hs, isLockRelease, isStopGradingAction,
      isRequestEvent, List.countP_cons]

/-- C10: called with the empty list, loadSelectionForReview does not no-op:
it still issues exactly one full-submission fetch, and the first event of
its trace is that fetch with submission id none (the absent first element
produced by the unguarded indexing). -/
theorem loadSelectionForReview_empty_list (ctx : Ctx σ) (s : σ) :
    ((loadSelectionForReview ctx ([] : List String) s).2.countP isFullFetch = 1)
    ∧ ((loadSelectionForReview ctx ([] : List String) s).2.head?
        = some (Event.request (Request.fetchSubmission none))) := by
  cases hs : ctx.succeeds (Request.fetchSubmission (none : Option String)) <;>
    simp [loadSelectionForReview, hs, isFullFetch, List.countP_cons, List.countP_append,
      prefetchNextRequest, prefetchPrevRequest, apply_ite (List.countP isFullFetch)]

end Grading

namespace Grading

/-- C2 (amended): for every state in which the next-neighbor existence
selector returns false at invocation time, loadNext results in exactly one
status fetch (heading the trace, for the next submission id read at
invocation) and no response-only prefetch fetch. -/
theorem loadNext_no_neighbor_at_invocation (ctx : Ctx σ) (s : σ)
    (hn : ctx.nextDoesExist s = false) :
    ((loadNext ctx s).2.countP isStatusFetch = 1)
    ∧ ((loadNext ctx s).2.countP isResponseFetch = 0)
    ∧ ((loadNext ctx s).2.head?
        = some (Event.request (Request.fetchSubmissionStatus (ctx.nextSubmissionUUID s)))) := by
  cases hs : ctx.succeeds (Request.fetchSubmissionStatus (ctx.nextSubmissionUUID s)) <;>
    simp [loadNext, fetchNeighbor, hs, hn, isStatusFetch, isResponseFetch, List.countP_cons]

/-- C2 (counterexample to the claim as stated): in ctxPreOnly at state 0
the submission navigated to has no next neighbor after the navigation (the
existence selector is false both at the post-load state and at the final
state), yet the run performs a prefetch fetch — the code gates the prefetch
on the check made before the load, not after. -/
theorem loadNext_post_navigation_check_refuted :
    (ctxPreOnly.nextDoesExist (postLoadNextState ctxPreOnly 0) = false)
    ∧ (ctxPreOnly.nextDoesExist ((loadNext ctxPreOnly 0).1) = false)
    ∧ ((loadNext ctxPreOnly 0).2.countP isResponseFetch = 1) := by
  decide

/-- C2 witness: the amended theorem applied to ctxNoNext at state 0, where
no next neighbor exists at invocation. -/
theorem loadNext_no_neighbor_at_invocation_witness :
    (ctxNoNext.nextDoesExist 0 = false)
    ∧ (((loadNext ctxNoNext 0).2.countP isStatusFetch = 1)
       ∧ ((loadNext ctxNoNext 0).2.countP isResponseFetch = 0)
       ∧ ((loadNext ctxNoNext 0).2.head?
           = some (Event.request
               (Request.fetchSubmissionStatus (ctxNoNext.nextSubmissionUUID 0))))) :=
  ⟨rfl, loadNext_no_neighbor_at_invocation ctxNoNext 0 rfl⟩

/-- C3 (amended): for every state in which the next-neighbor existence
selector returns true at invocation time and the status fetch succeeds,
loadNext results in exactly one status fetch for the next submission id,
then the load action dispatch, then exactly one response-only fetch whose
submission id is read from the state after the load dispatch (followed by
the preload dispatch exactly when that fetch succeeds). -/
theorem loadNext_neighbor_at_invocation (ctx : Ctx σ) (s : σ)
    (hn : ctx.nextDoesExist s = true)
    (hs : ctx.succeeds (Request.fetchSubmissionStatus (ctx.nextSubmissionUUID s)) = true) :
    ((loadNext ctx s).2.countP isStatusFetch = 1)
    ∧ ((loadNext ctx s).2.countP isResponseFetch = 1)
    ∧ ((loadNext ctx s).2
        = Event.request (Request.fetchSubmissionStatus (ctx.nextSubmissionUUID s))
            :: Event.action (Action.loadNext
                 (mergeUUID
                   (ctx.response (Request.fetchSubmissionStatus (ctx.nextSubmissionUUID s)))
                   (ctx.nextSubmissionUUID s)))
            :: Event.request (prefetchNextRequest ctx (postLoadNextState ctx s))
            :: (if ctx.succeeds (prefetchNextRequest ctx (postLoadNextState ctx s)) then
                  [Event.action (Action.preloadNext
                     (ctx.response (prefetchNextRequest ctx (postLoadNextState ctx s))))]
                else [])) := by
  refine ⟨?_, ?_, ?_⟩ <;>
    simp [loadNext, fetchNeighbor, hs, hn, postLoadNextState, prefetchNext_run,
      prefetchNext_responseFetch_count, prefetchNext_statusFetch_count,
      isStatusFetch, isResponseFetch, isStatusFetch_prefetchNextRequest,
      isResponseFetch_prefetchNextRequest, List.countP_cons,
      apply_ite (List.countP isResponseFetch), apply_ite (List.countP isStatusFetch)] <;>
    rfl

/-- C3 (counterexample to the claim as stated): in ctxPostOnly at state 0
the submission navigated to has an existing next neighbor after the
navigation (the existence selector is true at the post-load and final
state), yet the run performs no response-only fetch, because the check the
code uses — made before the load — was false. -/
theorem loadNext_pre_navigation_gate_refuted :
    (ctxPostOnly.nextDoesExist (postLoadNextState ctxPostOnly 0) = true)
    ∧ (ctxPostOnly.nextDoesExist ((loadNext ctxPostOnly 0).1) = true)
    ∧ ((loadNext ctxPostOnly 0).2.countP isResponseFetch = 0) := by
  decide

/-- C3 witness: the amended theorem applied to baseCtx at state 0, where a
next neighbor exists at invocation and the status fetch succeeds. -/
theorem loadNext_neighbor_at_invocation_witness :
    ((baseCtx.nextDoesExist 0 = true)
      ∧ (baseCtx.succeeds (Request.fetchSubmissionStatus (baseCtx.nextSubmissionUUID 0))
          = true))
    ∧ (((loadNext baseCtx 0).2.countP isStatusFetch = 1)
       ∧ ((loadNext baseCtx 0).2.countP isResponseFetch = 1)
       ∧ ((loadNext baseCtx 0).2
           = Event.request (Request.fetchSubmissionStatus (baseCtx.nextSubmissionUUID 0))
               :: Event.action (Action.loadNext
                    (mergeUUID
                      (baseCtx.response
                        (Request.fetchSubmissionStatus (baseCtx.nextSubmissionUUID 0)))
                      (baseCtx.nextSubmissionUUID 0)))
               :: Event.request (prefetchNextRequest baseCtx (postLoadNextState baseCtx 0))
               :: (if baseCtx.succeeds
                       (prefetchNextRequest baseCtx (postLoadNextState baseCtx 0)) then
                     [Event.action (Action.preloadNext
                        (baseCtx.response
                          (prefetchNextRequest baseCtx (postLoadNextState baseCtx 0))))]
                   else []))) :=
  ⟨⟨rfl, rfl⟩, loadNext_neighbor_at_invocation baseCtx 0 rfl rfl⟩

/-- C9: in loadNext and loadPrev the prefetch is gated by the existence
selector evaluated at invocation time (the count of response-only fetches
depends only on that pre-navigation check and on the status fetch
succeeding, regardless of the post-navigation state), while the prefetch
request that is issued reads its target submission id from the state after
the load action has been dispatched. -/
theorem loadNeighbor_check_timing (ctx : Ctx σ) (s : σ) :
    ((loadNext ctx s).2.countP isResponseFetch
      = if ctx.succeeds (Request.fetchSubmissionStatus (ctx.nextSubmissionUUID s)) then
          (if ctx.nextDoesExist s then 1 else 0)
        else 0)
    ∧ (ctx.succeeds (Request.fetchSubmissionStatus (ctx.nextSubmissionUUID s)) = true →
       ctx.nextDoesExist s = true →
         Event.request (prefetchNextRequest ctx (postLoadNextState ctx s)) ∈ (loadNext ctx s).2)
    ∧ ((loadPrev ctx s).2.countP isResponseFetch
      = if ctx.succeeds (Request.fetchSubmissionStatus (ctx.prevSubmissionUUID s)) then
          (if ctx.prevDoesExist s then 1 else 0)
        else 0)
    ∧ (ctx.succeeds (Request.fetchSubmissionStatus (ctx.prevSubmissionUUID s)) = true →
       ctx.prevDoesExist s = true →
         Event.request (prefetchPrevRequest ctx (postLoadPrevState ctx s)) ∈ (loadPrev ctx s).2) := by
  refine ⟨?_, ?_, ?_, ?_⟩
  · cases hs : ctx.succeeds (Request.fetchSubmissionStatus (ctx.nextSubmissionUUID s)) <;>
      cases hn : ctx.nextDoesExist s <;>
        simp [loadNext, fetchNeighbor, hs, hn, isResponseFetch, List.countP_cons,
          prefetchNext_responseFetch_count]
  · intro hs hn
    simp [loadNext, fetchNeighbor, hs, hn, postLoadNextState, prefetchNext_run]
  · cases hs : ctx.succeeds (Request.fetchSubmissionStatus (ctx.prevSubmissionUUID s)) <;>
      cases hn : ctx.prevDoesExist s <;>
        simp [loadPrev, fetchNeighbor, hs, hn, isResponseFetch, List.countP_cons,
          prefetchPrev_responseFetch_count]
  · intro hs hn
    simp [loadPrev, fetchNeighbor, hs, hn, postLoadPrevState, prefetchPrev_run]

/-- C9 witness: the timing theorem applied to baseCtx at state 0; its inner
hypotheses (status fetch succeeds, next neighbor exists at invocation) are
discharged there, giving the prefetch request for the post-load id. -/
theorem loadNeighbor_check_timing_witness :
    Event.request (prefetchNextRequest baseCtx (postLoadNextState baseCtx 0))
      ∈ (loadNext baseCtx 0).2 :=
  (loadNeighbor_check_timing baseCtx 0).2.1 rfl rfl

end Grading

namespace Grading

/-- C4: on the success path of the lock request, startGrading dispatches
exactly one startGrading store action, whose gradeData is some gd with
either gd the response's grade data verbatim, or — exactly when the
response carries none — the emptyGrade selector value (read after the
setShowRubric dispatch); the two cases are mutually exclusive by the shape
of the response, and in every case the rubric panel is made visible. -/
theorem startGrading_gradeData_choice (ctx : Ctx σ) (s : σ)
    (h : ctx.succeeds (Request.setLock true (ctx.selectedSubmissionUUID s)) = true) :
    ∃ gd : GradeData,
      ((startGrading ctx s).2
        = [Event.request (Request.setLock true (ctx.selectedSubmissionUUID s)),
           Event.action (Action.setShowRubric true),
           Event.action (Action.startGrading
             (ctx.response (Request.setLock true (ctx.selectedSubmissionUUID s))) gd)])
      ∧ ((startGrading ctx s).2.countP isStartGradingAction = 1)
      ∧ (Event.action (Action.setShowRubric true) ∈ (startGrading ctx s).2)
      ∧ ((ctx.response (Request.setLock true (ctx.selectedSubmissionUUID s))).gradeData
            = some gd
          ∨ ((ctx.response (Request.setLock true (ctx.selectedSubmissionUUID s))).gradeData
              = none
            ∧ gd = ctx.emptyGrade (ctx.apply s (Action.setShowRubric true)))) := by
  cases hgd : (ctx.response (Request.setLock true (ctx.selectedSubmissionUUID s))).gradeData with
  | some g =>
      refine ⟨g, ?_, ?_, ?_, Or.inl rfl⟩ <;>
        simp [startGrading, h, hgd, isStartGradingAction, List.countP_cons]
  | none =>
      refine ⟨ctx.emptyGrade (ctx.apply s (Action.setShowRubric true)), ?_, ?_, ?_,
          Or.inr ⟨rfl, rfl⟩⟩ <;>
        simp [startGrading, h, hgd, isStartGradingAction, List.countP_cons]

/-- C4 witness: the theorem applied to baseCtx (whose lock response carries
grade data) at state 0. -/
theorem startGrading_gradeData_choice_witness :
    (baseCtx.succeeds (Request.setLock true (baseCtx.selectedSubmissionUUID 0)) = true)
    ∧ (∃ gd : GradeData,
        ((startGrading baseCtx 0).2
          = [Event.request (Request.setLock true (baseCtx.selectedSubmissionUUID 0)),
             Event.action (Action.setShowRubric true),
             Event.action (Action.startGrading
               (baseCtx.response (Request.setLock true (baseCtx.selectedSubmissionUUID 0)))
               gd)])
        ∧ ((startGrading baseCtx 0).2.countP isStartGradingAction = 1)
        ∧ (Event.action (Action.setShowRubric true) ∈ (startGrading baseCtx 0).2)
        ∧ ((baseCtx.response
              (Request.setLock true (baseCtx.selectedSubmissionUUID 0))).gradeData
              = some gd
            ∨ ((baseCtx.response
                  (Request.setLock true (baseCtx.selectedSubmissionUUID 0))).gradeData
                = none
              ∧ gd = baseCtx.emptyGrade (baseCtx.apply 0 (Action.setShowRubric true))))) :=
  ⟨rfl, startGrading_gradeData_choice baseCtx 0 rfl⟩

/-- C5: for a non-empty selection whose initial full fetch succeeds,
loadSelectionForReview issues exactly one full-submission fetch (for the
first id) and its trace is, in order: that fetch, updateSelection with the
full ordered list, loadSubmission with the response merged with the first
id, setShowReview true, then — independently and not mutually exclusively —
the next-prefetch request if a next neighbor exists and the prev-prefetch
request if a previous neighbor exists, both existence checks and both
prefetch target ids evaluated against the state reached after the load
dispatches (postSelectState). -/
theorem loadSelectionForReview_success_sequence (ctx : Ctx σ)
    (submissionUUIDs : List String) (s : σ)
    (_hne : submissionUUIDs ≠ [])
    (hs : ctx.succeeds (Request.fetchSubmission submissionUUIDs.head?) = true) :
    ((loadSelectionForReview ctx submissionUUIDs s).2
      = Event.request (Request.fetchSubmission submissionUUIDs.head?)
          :: Event.action (Action.updateSelection submissionUUIDs)
          :: Event.action (Action.loadSubmission
               (mergeUUID (ctx.response (Request.fetchSubmission submissionUUIDs.head?))
                 submissionUUIDs.head?))
          :: Event.action (Action.setShowReview true)
          :: ((if ctx.nextDoesExist (postSelectState ctx submissionUUIDs s) then
                 [Event.request
                    (prefetchNextRequest ctx (postSelectState ctx submissionUUIDs s))]
               else [])
              ++ (if ctx.prevDoesExist (postSelectState ctx submissionUUIDs s) then
                 [Event.request
                    (prefetchPrevRequest ctx (postSelectState ctx submissionUUIDs s))]
               else [])))
    ∧ ((loadSelectionForReview ctx submissionUUIDs s).2.countP isFullFetch = 1) := by
  refine ⟨?_, ?_⟩
  · simp [loadSelectionForReview, hs, postSelectState]
  · simp [loadSelectionForReview, hs, isFullFetch, List.countP_cons, List.countP_append,
      prefetchNextRequest, prefetchPrevRequest, apply_ite (List.countP isFullFetch)]

/-- C5 witness: the theorem applied to baseCtx with the selection A, B, C at
state 0, where both neighbors exist, so both prefetch requests appear. -/
theorem loadSelectionForReview_success_sequence_witness :
    ((["A", "B", "C"] : List String) ≠ []
      ∧ baseCtx.succeeds
          (Request.fetchSubmission (["A", "B", "C"] : List String).head?) = true)
    ∧ (((loadSelectionForReview baseCtx ["A", "B", "C"] 0).2
        = Event.request (Request.fetchSubmission (["A", "B", "C"] : List String).head?)
            :: Event.action (Action.updateSelection ["A", "B", "C"])
            :: Event.action (Action.loadSubmission
                 (mergeUUID
                   (baseCtx.response
                     (Request.fetchSubmission (["A", "B", "C"] : List String).head?))
                   (["A", "B", "C"] : List String).head?))
            :: Event.action (Action.setShowReview true)
            :: ((if baseCtx.nextDoesExist (postSelectState baseCtx ["A", "B", "C"] 0) then
                   [Event.request
                      (prefetchNextRequest baseCtx (postSelectState baseCtx ["A", "B", "C"] 0))]
                 else [])
                ++ (if baseCtx.prevDoesExist (postSelectState baseCtx ["A", "B", "C"] 0) then
                   [Event.request
                      (prefetchPrevRequest baseCtx (postSelectState baseCtx ["A", "B", "C"] 0))]
                 else [])))
      ∧ ((loadSelectionForReview baseCtx ["A", "B", "C"] 0).2.countP isFullFetch = 1)) :=
  ⟨⟨by decide, rfl⟩, loadSelectionForReview_success_sequence baseCtx ["A", "B", "C"] 0
    (by decide) rfl⟩

/-- C8: when the grade is valid for submission and the submit request
fails, submitGrade's trace is exactly the setShowValidation false dispatch
followed by the submit request — the failure callback dispatches nothing —
its final state is the state at the time the request was issued (the
invocation state with only the setShowValidation false action applied), and
no completeGrading action is dispatched. -/
theorem submitGrade_failure_noop (ctx : Ctx σ) (s : σ)
    (hv : ctx.isValidForSubmit s = true)
    (hf : ctx.succeeds (Request.submitGrade (ctx.selectedSubmissionUUID s)
            (ctx.selectedGradingData s)) = false) :
    ((submitGrade ctx s).2
      = [Event.action (Action.setShowValidation false),
         Event.request (Request.submitGrade (ctx.selectedSubmissionUUID s)
           (ctx.selectedGradingData s))])
    ∧ ((submitGrade ctx s).1 = ctx.apply s (Action.setShowValidation false))
    ∧ ((submitGrade ctx s).2.countP isCompleteGradingAction = 0) := by
  refine ⟨?_, ?_, ?_⟩ <;>
    simp [submitGrade, hv, hf, isCompleteGradingAction, List.countP_cons]

/-- C8 witness: the theorem applied to ctxSubmitFails (valid grade, failing
submit request) at state 0. -/
theorem submitGrade_failure_noop_witness :
    ((ctxSubmitFails.isValidForSubmit 0 = true)
      ∧ (ctxSubmitFails.succeeds
          (Request.submitGrade (ctxSubmitFails.selectedSubmissionUUID 0)
            (ctxSubmitFails.selectedGradingData 0)) = false))
    ∧ (((submitGrade ctxSubmitFails 0).2
        = [Event.action (Action.setShowValidation false),
           Event.request (Request.submitGrade (ctxSubmitFails.selectedSubmissionUUID 0)
             (ctxSubmitFails.selectedGradingData 0))])
      ∧ ((submitGrade ctxSubmitFails 0).1
          = ctxSubmitFails.apply 0 (Action.setShowValidation false))
      ∧ ((submitGrade ctxSubmitFails 0).2.countP isCompleteGradingAction = 0)) :=
  ⟨⟨rfl, rfl⟩, submitGrade_failure_noop ctxSubmitFails 0 rfl rfl⟩

end Grading
